import Mathlib

/-!
Shallow embedding of the auth/session core and the contacts repository of
the WEB_dz_14 service (src/services/auth.py, src/repository/users.py),
together with theorems settling the frozen claims about them.

Time is modelled as seconds since the epoch (Nat).  A JWT is modelled as
its claim set plus a flag recording whether its signature verifies under
the shared secret and configured algorithm; jose only exposes the claims
after the signature and expiry checks pass, which is what jwtDecode below
captures.  JSON claim values that the code inspects are either null or a
string, modelled by JsonVal; an absent claim is `none`.
-/

/-- JSON value of a claim as the code observes it: null or a string. -/
inductive JsonVal where
  | null
  | str (s : String)
deriving Repr, DecidableEq

/-- Claim set of a token.  `sub`/`scope` are `none` when the claim is
absent from the payload dictionary (subscripting then raises KeyError in
Python).  All tokens this application mints carry `iat` and `exp`. -/
structure TokenClaims where
  sub : Option JsonVal
  scope : Option JsonVal
  iat : Nat
  exp : Nat
deriving Repr, DecidableEq

/-- A token string as the codec sees it: its decoded claim set and
whether its signature verifies under SECRET_KEY / ALGORITHM.  A garbage
or tampered string is any `Jwt` with `sigOk = false`. -/
structure Jwt where
  claims : TokenClaims
  sigOk : Bool
deriving Repr, DecidableEq

/-- Failure kinds of jose jwt.decode; both are JWTError subclasses, so
both are caught by `except JWTError`. -/
inductive JoseError where
  | signatureError
  | expiredSignature
deriving Repr, DecidableEq

/-- Outcome of a failing service call: an HTTPException carrying status
code, detail string and whether the WWW-Authenticate Bearer header is
attached, or an uncaught Python KeyError escaping the handler. -/
inductive AppError where
  | http (statusCode : Nat) (detail : String) (wwwAuthBearer : Bool)
  | keyError
deriving Repr, DecidableEq

/-- jose jwt.decode(token, SECRET_KEY, algorithms=[ALGORITHM]): verifies
the signature first, then the exp claim (expired when exp < now, zero
leeway), and only then returns the payload. -/
def jwtDecode (t : Jwt) (now : Nat) : Except JoseError TokenClaims :=
  if t.sigOk = false then Except.error JoseError.signatureError
  else if t.claims.exp < now then Except.error JoseError.expiredSignature
  else Except.ok t.claims

/-- Python truthiness of the `expires_delta: Optional[float]` argument:
`if expires_delta:` is False for None and for 0. -/
def pyTruthy : Option Nat → Bool
  | none => false
  | some d => d != 0

/-- Auth.create_access_token: copies the caller data (whose only claim in
this application is "sub"), sets iat = now, exp = now + expires_delta
seconds when expires_delta is truthy else now + 15 minutes, and
scope = "access_token"; signs with the shared secret. -/
def create_access_token (dataSub : Option JsonVal) (expires_delta : Option Nat)
    (now : Nat) : Jwt :=
  { claims :=
      { sub := dataSub
        scope := some (JsonVal.str "access_token")
        iat := now
        exp := if pyTruthy expires_delta then now + expires_delta.getD 0
               else now + 15 * 60 }
    sigOk := true }

/-- Auth.create_refresh_token: same shape with scope = "refresh_token"
and a default lifetime of 7 days. -/
def create_refresh_token (dataSub : Option JsonVal) (expires_delta : Option Nat)
    (now : Nat) : Jwt :=
  { claims :=
      { sub := dataSub
        scope := some (JsonVal.str "refresh_token")
        iat := now
        exp := if pyTruthy expires_delta then now + expires_delta.getD 0
               else now + 7 * 24 * 60 * 60 }
    sigOk := true }

/-- Auth.create_email_token: copies the caller data (here again only a
"sub" entry at every call site) and sets iat = now, exp = now + 7 days;
no scope claim is added. -/
def create_email_token (dataSub : Option JsonVal) (now : Nat) : Jwt :=
  { claims :=
      { sub := dataSub
        scope := none
        iat := now
        exp := now + 7 * 24 * 60 * 60 }
    sigOk := true }

/-- Auth.get_email_from_token: jose decode with no scope filter inside a
try; any JWTError maps to HTTP 422 "Invalid token for email verification".
The subscript payload["sub"] raises KeyError when the claim is absent,
and KeyError is not a JWTError, so it escapes the except clause. -/
def get_email_from_token (t : Jwt) (now : Nat) : Except AppError JsonVal :=
  match jwtDecode t now with
  | Except.ok payload =>
      match payload.sub with
      | some v => Except.ok v
      | none => Except.error AppError.keyError
  | Except.error _ =>
      Except.error (AppError.http 422 "Invalid token for email verification" false)

/-- Auth.decode_refresh_token: jose decode inside a try; on JWTError
raises 401 "Could not validate credentials" (no header).  On success
checks payload["scope"] == "refresh_token" (KeyError when scope is
absent escapes the except clause); a wrong scope raises 401 "Invalid
scope for token", and a matching scope returns payload["sub"] (again a
KeyError when sub is absent). -/
def decode_refresh_token (t : Jwt) (now : Nat) : Except AppError JsonVal :=
  match jwtDecode t now with
  | Except.ok payload =>
      match payload.scope with
      | some sv =>
          if sv = JsonVal.str "refresh_token" then
            match payload.sub with
            | some v => Except.ok v
            | none => Except.error AppError.keyError
          else Except.error (AppError.http 401 "Invalid scope for token" false)
      | none => Except.error AppError.keyError
  | Except.error _ =>
      Except.error (AppError.http 401 "Could not validate credentials" false)

/-- Principal row of the UserAuth table, with the fields the session
resolver reads (modelled from their uses in src/services/auth.py and
src/repository/users.py). -/
structure UserAuth where
  id : Nat
  email : String
  confirmed : Bool
  refresh_token : Option String
deriving Repr, DecidableEq

/-- State of the redis store: key, pickled principal snapshot, and the
remaining TTL metadata (`none` when no expiry was set on the key). -/
abbrev Cache := List (String × UserAuth × Option Nat)

/-- redis GET followed by pickle.loads on a hit: first entry under the
key, ignoring the TTL bookkeeping (the store expires keys natively). -/
def redisGet (c : Cache) (k : String) : Option UserAuth :=
  match c.find? (fun e => e.1 == k) with
  | some e => some e.2.1
  | none => none

/-- redis SET: overwrite the first entry under the key (clearing any TTL,
as redis SET does) or append a fresh entry. -/
def redisSet : Cache → String → UserAuth → Cache
  | [], k, v => [(k, v, none)]
  | e :: rest, k, v =>
      if e.1 = k then (k, v, none) :: rest else e :: redisSet rest k v

/-- redis EXPIRE: set the TTL of the first entry under the key. -/
def redisExpire : Cache → String → Nat → Cache
  | [], _, _ => []
  | e :: rest, k, t =>
      if e.1 = k then (e.1, e.2.1, some t) :: rest else e :: redisExpire rest k t

/-- Lookup of an entry together with its TTL metadata. -/
def cacheFind (c : Cache) (k : String) : Option (UserAuth × Option Nat) :=
  match c.find? (fun e => e.1 == k) with
  | some e => some (e.2.1, e.2.2)
  | none => none

/-- repository.users.get_user_by_email: first UserAuth row whose email
column equals the argument. -/
def get_user_by_email (email : String) (db : List UserAuth) : Option UserAuth :=
  db.find? (fun u => u.email == email)

/-- The single credentials exception of Auth.get_current_user: HTTP 401
"Could not validate credentials" with header WWW-Authenticate: Bearer. -/
def credentialsException : AppError :=
  AppError.http 401 "Could not validate credentials" true

/-- Auth.get_current_user.  Inside a try: jose decode (JWTError maps to
the credentials exception), then payload["scope"] == "access_token"
(KeyError on an absent scope claim escapes the except clause; a non
matching scope raises the credentials exception), then
email = payload["sub"] (KeyError on an absent sub claim escapes; a null
sub raises the credentials exception).  After the try: redis GET on
"user:" + email; on a hit the pickled snapshot is returned unchanged; on
a miss the user-lookup collaborator runs, an absent row raises the
credentials exception, and a found row is written through with redis SET
then EXPIRE 900 and returned.  Returns the principal with the resulting
cache state. -/
def get_current_user (t : Jwt) (now : Nat) (cache : Cache) (db : List UserAuth) :
    Except AppError (UserAuth × Cache) :=
  match jwtDecode t now with
  | Except.error _ => Except.error credentialsException
  | Except.ok payload =>
      match payload.scope with
      | none => Except.error AppError.keyError
      | some sv =>
          if sv = JsonVal.str "access_token" then
            match payload.sub with
            | none => Except.error AppError.keyError
            | some JsonVal.null => Except.error credentialsException
            | some (JsonVal.str email) =>
                match redisGet cache ("user:" ++ email) with
                | some u => Except.ok (u, cache)
                | none =>
                    match get_user_by_email email db with
                    | none => Except.error credentialsException
                    | some user =>
                        Except.ok (user,
                          redisExpire (redisSet cache ("user:" ++ email) user)
                            ("user:" ++ email) 900)
          else Except.error credentialsException

/-- A passlib hash string as CryptContext(schemes=["bcrypt"]) classifies
it: either a well-formed bcrypt hash (recording the password it encodes
and its random salt) or a string the context cannot identify as any
configured scheme. -/
inductive PasslibHash where
  | bcrypt (password : String) (salt : Nat)
  | malformed (raw : String)
deriving Repr, DecidableEq

/-- passlib CryptContext.verify, modelled from its documented contract:
on a well-formed hash it returns whether the plain password is the one
the hash encodes; on a string it cannot identify it raises
UnknownHashError (a ValueError), it does not return False. -/
def pwd_context_verify (plain : String) (h : PasslibHash) : Except String Bool :=
  match h with
  | PasslibHash.bcrypt pw _ => Except.ok (plain == pw)
  | PasslibHash.malformed _ => Except.error "UnknownHashError"

/-- Auth.verify_password: delegates directly to pwd_context.verify with
no exception handling of its own. -/
def verify_password (plain : String) (h : PasslibHash) : Except String Bool :=
  pwd_context_verify plain h

/-- Auth.get_password_hash: pwd_context.hash produces a well-formed
bcrypt hash of the password under a fresh random salt. -/
def get_password_hash (password : String) (salt : Nat) : PasslibHash :=
  PasslibHash.bcrypt password salt

/-- Calendar date as the repository reads it (year, month, day); the
birthday query only consults month and day. -/
structure PyDate where
  year : Nat
  month : Nat
  day : Nat
deriving Repr, DecidableEq

/-- Contact row of the User table, with the columns the repository reads
and writes (modelled from their uses in src/repository/users.py). -/
structure Contact where
  id : Nat
  first_name : String
  last_name : String
  email : String
  phone_numbers : String
  other_description : String
  birthday_date : PyDate
deriving Repr, DecidableEq

/-- Request body schema for contact creation and update, with the fields
the repository consumes. -/
structure UserSchema where
  first_name : String
  last_name : String
  email : String
  phone_numbers : String
  other_description : String
  birthday_date : PyDate
deriving Repr, DecidableEq

/-- repository.users.get_birthday: loops over all User rows and keeps a
row exactly when birthday month >= today month, birthday day >= today
day, birthday month <= end month and birthday day <= end day. -/
def get_birthday (today end_date : PyDate) (users : List Contact) : List Contact :=
  users.filter (fun u =>
    decide (today.month ≤ u.birthday_date.month) &&
    decide (today.day ≤ u.birthday_date.day) &&
    decide (u.birthday_date.month ≤ end_date.month) &&
    decide (u.birthday_date.day ≤ end_date.day))

/-- Order on (month, day) pairs ignoring the year: earlier or same
position within a calendar year. -/
def monthDayLe (a b : PyDate) : Bool :=
  a.month < b.month || (a.month == b.month && a.day ≤ b.day)

/-- Modelled from the claim: the birthday, with its year ignored, lies
within the inclusive range from today to end_date, where a range whose
end point precedes its start point within the calendar year wraps over
the year boundary. -/
def monthDayInRange (today end_date bd : PyDate) : Bool :=
  if monthDayLe today end_date then
    monthDayLe today bd && monthDayLe bd end_date
  else
    monthDayLe today bd || monthDayLe bd end_date

/-- repository.users.search_users: loops over all User rows; for each
row, each of the three criteria that is not None and matches appends the
row to the result, independently of the other criteria. -/
def search_users (first_name last_name email : Option String)
    (users : List Contact) : List Contact :=
  users.foldl (fun acc u =>
    let acc1 := match first_name with
      | some fn => if u.first_name = fn then acc ++ [u] else acc
      | none => acc
    let acc2 := match last_name with
      | some ln => if u.last_name = ln then acc1 ++ [u] else acc1
      | none => acc1
    match email with
    | some em => if u.email = em then acc2 ++ [u] else acc2
    | none => acc2) []

/-- Persisting an ORM mutation: the first User row whose id matches is
replaced by the mutated object; other rows are untouched. -/
def setContact : List Contact → Nat → Contact → List Contact
  | [], _, _ => []
  | v :: rest, uid, u =>
      if v.id = uid then u :: rest else v :: setContact rest uid u

/-- repository.users.update_user: first User row with the given id; when
present, its first_name, last_name, phone_numbers, email and
other_description columns are overwritten from the body and the change
is committed; returns the row (or None) and the resulting table. -/
def update_user (user_id : Nat) (body : UserSchema) (db : List Contact) :
    Option Contact × List Contact :=
  match db.find? (fun v => v.id == user_id) with
  | none => (none, db)
  | some u =>
      let u2 := { u with
        first_name := body.first_name
        last_name := body.last_name
        phone_numbers := body.phone_numbers
        email := body.email
        other_description := body.other_description }
      (some u2, setContact db user_id u2)

/-- Helper: replacing the first row found under an id keeps the id and
birthday columns of every row of the table. -/
theorem setContact_map_frame (db : List Contact) (uid : Nat) (u u2 : Contact)
    (hfind : db.find? (fun v => v.id == uid) = some u)
    (hid : u2.id = u.id) (hbd : u2.birthday_date = u.birthday_date) :
    (setContact db uid u2).map (fun v => (v.id, v.birthday_date))
      = db.map (fun v => (v.id, v.birthday_date)) := by
  induction db with
  | nil => simp at hfind
  | cons e rest ih =>
    by_cases h : e.id = uid
    · have hu : e = u := by
        rw [List.find?_cons_of_pos _ (by simp [h])] at hfind
        exact Option.some.inj hfind
      subst hu
      simp [setContact, h, hid, hbd]
    · have hfind2 : rest.find? (fun v => v.id == uid) = some u := by
        rwa [List.find?_cons_of_neg _ (by simp [h])] at hfind
      simp [setContact, h, ih hfind2]

/-- Claim C10: update_user modifies only the columns first_name,
last_name, phone_numbers, email and other_description; for every user id
and request body, every row of the table keeps its id and its
birthday_date, so the birthday of the targeted user is unchanged. -/
theorem update_user_preserves_birthday (uid : Nat) (body : UserSchema)
    (db : List Contact) :
    ((update_user uid body db).2).map (fun v => (v.id, v.birthday_date))
      = db.map (fun v => (v.id, v.birthday_date)) := by
  unfold update_user
  cases hf : db.find? (fun v => v.id == uid) with
  | none => rfl
  | some u => exact setContact_map_frame db uid u _ hf rfl rfl

/-- Claim C9: a stored user matching several of the non-None criteria is
appended once per matching criterion, so a user matching all three
appears three times in the result, and one matching both name criteria
appears twice. -/
theorem search_users_appends_per_criterion (u : Contact) (fn ln em : String)
    (h1 : u.first_name = fn) (h2 : u.last_name = ln) (h3 : u.email = em) :
    search_users (some fn) (some ln) (some em) [u] = [u, u, u] ∧
    search_users (some fn) (some ln) none [u] = [u, u] := by
  subst h1; subst h2; subst h3
  constructor <;> simp [search_users]

/-- Witness for C9 at a concrete contact matching all three criteria. -/
theorem search_users_appends_per_criterion_witness :
    search_users (some "a") (some "b") (some "c")
        [⟨1, "a", "b", "c", "d", "e", ⟨2000, 3, 30⟩⟩]
      = [⟨1, "a", "b", "c", "d", "e", ⟨2000, 3, 30⟩⟩,
         ⟨1, "a", "b", "c", "d", "e", ⟨2000, 3, 30⟩⟩,
         ⟨1, "a", "b", "c", "d", "e", ⟨2000, 3, 30⟩⟩] ∧
    search_users (some "a") (some "b") none
        [⟨1, "a", "b", "c", "d", "e", ⟨2000, 3, 30⟩⟩]
      = [⟨1, "a", "b", "c", "d", "e", ⟨2000, 3, 30⟩⟩,
         ⟨1, "a", "b", "c", "d", "e", ⟨2000, 3, 30⟩⟩] :=
  search_users_appends_per_criterion
    ⟨1, "a", "b", "c", "d", "e", ⟨2000, 3, 30⟩⟩ "a" "b" "c" rfl rfl rfl

/-- Claim C8: the birthday-range comparison of get_birthday is inverted
on day and month independently, so a range crossing a month boundary
(March 28 to April 4) excludes a user whose birthday (March 30, year
ignored) lies inside the range. -/
theorem get_birthday_month_rollover_bug :
    (2026 : Nat) ≠ 0 ∧
    (PyDate.mk 2026 3 28).month ≠ (PyDate.mk 2026 4 4).month ∧
    monthDayInRange (PyDate.mk 2026 3 28) (PyDate.mk 2026 4 4)
      (PyDate.mk 2000 3 30) = true ∧
    get_birthday (PyDate.mk 2026 3 28) (PyDate.mk 2026 4 4)
      [⟨1, "a", "b", "c", "d", "e", ⟨2000, 3, 30⟩⟩] = [] := by
  refine ⟨by decide, by decide, by decide, ?_⟩
  rfl

/-- Helper: after redis SET then EXPIRE 900, the key holds the written
snapshot with TTL metadata 900. -/
theorem cacheFind_set_expire (c : Cache) (k : String) (u : UserAuth) (t : Nat) :
    cacheFind (redisExpire (redisSet c k u) k t) k = some (u, some t) := by
  induction c with
  | nil => simp [redisSet, redisExpire, cacheFind]
  | cons e rest ih =>
    by_cases h : e.1 = k
    · simp [redisSet, redisExpire, cacheFind, h]
    · have h1 : redisSet (e :: rest) k u = e :: redisSet rest k u := by
        simp [redisSet, h]
      have h2 : redisExpire (e :: redisSet rest k u) k t
          = e :: redisExpire (redisSet rest k u) k t := by
        simp [redisExpire, h]
      have h3 : cacheFind (e :: redisExpire (redisSet rest k u) k t) k
          = cacheFind (redisExpire (redisSet rest k u) k t) k := by
        unfold cacheFind
        rw [List.find?_cons_of_neg _ (by simp [h])]
      rw [h1, h2, h3]
      exact ih

/-- Claim C2: cross-scope rejection.  For every subject email and any
token that is not expired at the check time, an access-scoped token fed
to decode_refresh_token fails with 401 Invalid scope for token, and a
refresh-scoped token fed to get_current_user fails with the 401
credentials exception, for every cache and database state. -/
theorem cross_scope_rejection (email : String) (delta : Option Nat)
    (now now2 : Nat) (cache : Cache) (db : List UserAuth)
    (ha : now2 ≤ (create_access_token (some (JsonVal.str email)) delta now).claims.exp)
    (hr : now2 ≤ (create_refresh_token (some (JsonVal.str email)) delta now).claims.exp) :
    decode_refresh_token (create_access_token (some (JsonVal.str email)) delta now) now2
      = Except.error (AppError.http 401 "Invalid scope for token" false) ∧
    get_current_user (create_refresh_token (some (JsonVal.str email)) delta now) now2 cache db
      = Except.error credentialsException := by
  have hna : ¬ ((create_access_token (some (JsonVal.str email)) delta now).claims.exp < now2) :=
    Nat.not_lt.mpr ha
  have hnr : ¬ ((create_refresh_token (some (JsonVal.str email)) delta now).claims.exp < now2) :=
    Nat.not_lt.mpr hr
  constructor
  · have h1 : ¬ ((if pyTruthy delta then now + Option.getD delta 0
        else now + 15 * 60) < now2) := by
      simpa [create_access_token] using hna
    simp [decode_refresh_token, jwtDecode, create_access_token, h1]
  · have h2 : ¬ ((if pyTruthy delta then now + Option.getD delta 0
        else now + 7 * 24 * 60 * 60) < now2) := by
      simpa [create_refresh_token] using hnr
    simp [get_current_user, jwtDecode, create_refresh_token, h2]

/-- Witness for C2 at email a@b, default lifetimes, issue time 0 and
check time 5. -/
theorem cross_scope_rejection_witness :
    decode_refresh_token (create_access_token (some (JsonVal.str "a@b")) none 0) 5
      = Except.error (AppError.http 401 "Invalid scope for token" false) ∧
    get_current_user (create_refresh_token (some (JsonVal.str "a@b")) none 0) 5 [] []
      = Except.error credentialsException :=
  cross_scope_rejection "a@b" none 0 5 [] [] (by decide) (by decide)

/-- Claim C3: issue/decode round trip.  A token just issued for an email
carries that email as its sub claim and its scope tag; while the check
time is before the exp of the token, jose decode succeeds with those
claims and decode_refresh_token returns the email for the refresh token;
once exp has elapsed, jose decode fails with the expiry kind
(ExpiredSignatureError), which decode_refresh_token surfaces as 401. -/
theorem issue_decode_roundtrip (email : String) (delta : Option Nat)
    (now now2 : Nat) :
    (now2 < (create_access_token (some (JsonVal.str email)) delta now).claims.exp →
      jwtDecode (create_access_token (some (JsonVal.str email)) delta now) now2
        = Except.ok (create_access_token (some (JsonVal.str email)) delta now).claims ∧
      (create_access_token (some (JsonVal.str email)) delta now).claims.sub
        = some (JsonVal.str email) ∧
      (create_access_token (some (JsonVal.str email)) delta now).claims.scope
        = some (JsonVal.str "access_token")) ∧
    ((create_access_token (some (JsonVal.str email)) delta now).claims.exp < now2 →
      jwtDecode (create_access_token (some (JsonVal.str email)) delta now) now2
        = Except.error JoseError.expiredSignature) ∧
    (now2 < (create_refresh_token (some (JsonVal.str email)) delta now).claims.exp →
      decode_refresh_token (create_refresh_token (some (JsonVal.str email)) delta now) now2
        = Except.ok (JsonVal.str email)) ∧
    ((create_refresh_token (some (JsonVal.str email)) delta now).claims.exp < now2 →
      jwtDecode (create_refresh_token (some (JsonVal.str email)) delta now) now2
        = Except.error JoseError.expiredSignature ∧
      decode_refresh_token (create_refresh_token (some (JsonVal.str email)) delta now) now2
        = Except.error (AppError.http 401 "Could not validate credentials" false)) := by
  refine ⟨?_, ?_, ?_, ?_⟩
  · intro h
    have h1 : ¬ ((create_access_token (some (JsonVal.str email)) delta now).claims.exp < now2) :=
      Nat.not_lt.mpr (Nat.le_of_lt h)
    have h2 : ¬ ((if pyTruthy delta then now + Option.getD delta 0
        else now + 15 * 60) < now2) := by
      simpa [create_access_token] using h1
    refine ⟨?_, rfl, rfl⟩
    simp [jwtDecode, create_access_token, h2]
  · intro h
    have h2 : (if pyTruthy delta then now + Option.getD delta 0
        else now + 15 * 60) < now2 := by
      simpa [create_access_token] using h
    simp [jwtDecode, create_access_token, h2]
  · intro h
    have h1 : ¬ ((create_refresh_token (some (JsonVal.str email)) delta now).claims.exp < now2) :=
      Nat.not_lt.mpr (Nat.le_of_lt h)
    have h2 : ¬ ((if pyTruthy delta then now + Option.getD delta 0
        else now + 7 * 24 * 60 * 60) < now2) := by
      simpa [create_refresh_token] using h1
    simp [decode_refresh_token, jwtDecode, create_refresh_token, h2]
  · intro h
    have h2 : (if pyTruthy delta then now + Option.getD delta 0
        else now + 7 * 24 * 60 * 60) < now2 := by
      simpa [create_refresh_token] using h
    constructor
    · simp [jwtDecode, create_refresh_token, h2]
    · simp [decode_refresh_token, jwtDecode, create_refresh_token, h2]

/-- Witness for C3 at email a@b, default lifetimes, issue time 0, check
times 10 (before expiry) and 700000 (after the 7 day refresh expiry). -/
theorem issue_decode_roundtrip_witness :
    jwtDecode (create_access_token (some (JsonVal.str "a@b")) none 0) 10
      = Except.ok (create_access_token (some (JsonVal.str "a@b")) none 0).claims ∧
    decode_refresh_token (create_refresh_token (some (JsonVal.str "a@b")) none 0) 10
      = Except.ok (JsonVal.str "a@b") ∧
    jwtDecode (create_access_token (some (JsonVal.str "a@b")) none 0) 1000
      = Except.error JoseError.expiredSignature ∧
    decode_refresh_token (create_refresh_token (some (JsonVal.str "a@b")) none 0) 700000
      = Except.error (AppError.http 401 "Could not validate credentials" false) :=
  ⟨((issue_decode_roundtrip "a@b" none 0 10).1 (by decide)).1,
   (issue_decode_roundtrip "a@b" none 0 10).2.2.1 (by decide),
   (issue_decode_roundtrip "a@b" none 0 1000).2.1 (by decide),
   ((issue_decode_roundtrip "a@b" none 0 700000).2.2.2 (by decide)).2⟩

/-- Claim C4: after a successful access-token decode yielding subject
email, get_current_user serves a cache hit on key "user:" + email from
the cache with the cache state untouched (and never consults the
database: the result does not depend on db); on a miss it calls the
user-lookup collaborator, fails with the credentials exception when the
row is absent, and otherwise writes the row through under
"user:" + email with a TTL of exactly 900 seconds and returns it. -/
theorem resolver_cache_behaviour (t : Jwt) (now : Nat) (email : String)
    (cache : Cache) (db : List UserAuth)
    (hsig : t.sigOk = true) (hexp : now ≤ t.claims.exp)
    (hscope : t.claims.scope = some (JsonVal.str "access_token"))
    (hsub : t.claims.sub = some (JsonVal.str email)) :
    (∀ u, redisGet cache ("user:" ++ email) = some u →
        get_current_user t now cache db = Except.ok (u, cache)) ∧
    (redisGet cache ("user:" ++ email) = none →
      get_user_by_email email db = none →
        get_current_user t now cache db = Except.error credentialsException) ∧
    (∀ u, redisGet cache ("user:" ++ email) = none →
      get_user_by_email email db = some u →
        get_current_user t now cache db
          = Except.ok (u, redisExpire (redisSet cache ("user:" ++ email) u)
              ("user:" ++ email) 900) ∧
        cacheFind (redisExpire (redisSet cache ("user:" ++ email) u)
            ("user:" ++ email) 900) ("user:" ++ email) = some (u, some 900)) := by
  have hd : jwtDecode t now = Except.ok t.claims := by
    have h1 : ¬ (t.claims.exp < now) := Nat.not_lt.mpr hexp
    simp [jwtDecode, hsig, h1]
  refine ⟨?_, ?_, ?_⟩
  · intro u hu
    simp [get_current_user, hd, hscope, hsub, hu]
  · intro hmiss habs
    simp [get_current_user, hd, hscope, hsub, hmiss, habs]
  · intro u hmiss hfound
    refine ⟨?_, cacheFind_set_expire cache ("user:" ++ email) u 900⟩
    simp [get_current_user, hd, hscope, hsub, hmiss, hfound]

/-- Witness for C4: the cache-hit path with a concrete token, a one-entry
cache and an empty database, and the miss path filling the cache with
TTL 900 from a one-row database. -/
theorem resolver_cache_behaviour_witness :
    get_current_user
        (Jwt.mk (TokenClaims.mk (some (JsonVal.str "a@b"))
          (some (JsonVal.str "access_token")) 0 1000) true) 0
        [("user:a@b", UserAuth.mk 7 "a@b" true none, some 50)] []
      = Except.ok (UserAuth.mk 7 "a@b" true none,
          [("user:a@b", UserAuth.mk 7 "a@b" true none, some 50)]) ∧
    get_current_user
        (Jwt.mk (TokenClaims.mk (some (JsonVal.str "a@b"))
          (some (JsonVal.str "access_token")) 0 1000) true) 0
        [] [UserAuth.mk 7 "a@b" true none]
      = Except.ok (UserAuth.mk 7 "a@b" true none,
          [("user:a@b", UserAuth.mk 7 "a@b" true none, some 900)]) :=
  ⟨(resolver_cache_behaviour
      (Jwt.mk (TokenClaims.mk (some (JsonVal.str "a@b"))
        (some (JsonVal.str "access_token")) 0 1000) true) 0 "a@b"
      [("user:a@b", UserAuth.mk 7 "a@b" true none, some 50)] []
      rfl (by decide) rfl rfl).1 (UserAuth.mk 7 "a@b" true none) (by decide),
   ((resolver_cache_behaviour
      (Jwt.mk (TokenClaims.mk (some (JsonVal.str "a@b"))
        (some (JsonVal.str "access_token")) 0 1000) true) 0 "a@b"
      [] [UserAuth.mk 7 "a@b" true none]
      rfl (by decide) rfl rfl).2.2 (UserAuth.mk 7 "a@b" true none)
      rfl (by decide)).1⟩

/-- Counterexample to claim C1 as stated: an email-verification token
(valid signature, not expired, no scope claim) is a bearer token whose
decoding fails in the sense of the claim (missing scope), yet
get_current_user fails with an uncaught KeyError, not with the single
401 credentials exception. -/
theorem resolver_keyerror_counterexample :
    get_current_user (create_email_token (some (JsonVal.str "a@b")) 0) 0 [] []
      = Except.error AppError.keyError ∧
    AppError.keyError ≠ credentialsException := by
  refine ⟨rfl, by decide⟩

/-- Claim C1 amended: every failure of get_current_user is either the
single 401 credentials exception (with WWW-Authenticate: Bearer) or an
uncaught KeyError; bad signature or expiry, a wrong scope value, and a
null subject all map to the credentials exception, while a token that
decodes but lacks the scope claim, or carries access scope but lacks the
sub claim, escapes as a KeyError. -/
theorem resolver_failure_taxonomy (t : Jwt) (now : Nat) (cache : Cache)
    (db : List UserAuth) :
    (∀ je, jwtDecode t now = Except.error je →
      get_current_user t now cache db = Except.error credentialsException) ∧
    (∀ p sv, jwtDecode t now = Except.ok p → p.scope = some sv →
      sv ≠ JsonVal.str "access_token" →
      get_current_user t now cache db = Except.error credentialsException) ∧
    (∀ p, jwtDecode t now = Except.ok p →
      p.scope = some (JsonVal.str "access_token") → p.sub = some JsonVal.null →
      get_current_user t now cache db = Except.error credentialsException) ∧
    (∀ p, jwtDecode t now = Except.ok p →
      (p.scope = none ∨
        (p.scope = some (JsonVal.str "access_token") ∧ p.sub = none)) →
      get_current_user t now cache db = Except.error AppError.keyError) ∧
    (∀ e, get_current_user t now cache db = Except.error e →
      e = credentialsException ∨ e = AppError.keyError) := by
  refine ⟨?_, ?_, ?_, ?_, ?_⟩
  · intro je h
    simp [get_current_user, h]
  · intro p sv hp hsc hne
    simp [get_current_user, hp, hsc, hne]
  · intro p hp hsc hsub
    simp [get_current_user, hp, hsc, hsub]
  · intro p hp hcase
    rcases hcase with hsc | hBoth
    · simp [get_current_user, hp, hsc]
    · simp [get_current_user, hp, hBoth.1, hBoth.2]
  · intro e he
    unfold get_current_user at he
    repeat' split at he
    all_goals simp_all [credentialsException]

/-- Witness for the amended C1: the email-verification token of the
counterexample exercises the KeyError clause, and a tampered token
exercises the credentials-exception clause. -/
theorem resolver_failure_taxonomy_witness :
    get_current_user (create_email_token (some (JsonVal.str "a@b")) 0) 5 [] []
      = Except.error AppError.keyError ∧
    get_current_user (Jwt.mk (TokenClaims.mk none none 0 100) false) 5 [] []
      = Except.error credentialsException :=
  ⟨(resolver_failure_taxonomy (create_email_token (some (JsonVal.str "a@b")) 0)
      5 [] []).2.2.2.1 (create_email_token (some (JsonVal.str "a@b")) 0).claims
      rfl (Or.inl rfl),
   (resolver_failure_taxonomy (Jwt.mk (TokenClaims.mk none none 0 100) false)
      5 [] []).1 JoseError.signatureError rfl⟩

/-- Counterexample to claim C5 as stated: a token with a valid signature
and no sub claim decodes, and get_email_from_token then fails with an
uncaught KeyError, which is neither the 422 UnprocessableToken outcome
nor any HTTPException at all. -/
theorem email_redeem_keyerror_counterexample :
    get_email_from_token (create_access_token none none 0) 0
      = Except.error AppError.keyError ∧
    AppError.keyError
      ≠ AppError.http 422 "Invalid token for email verification" false := by
  refine ⟨rfl, by decide⟩

/-- Claim C5 amended: get_email_from_token fails with the single 422
UnprocessableToken outcome exactly when jose decoding fails (bad
signature or expired); on a successful decode it returns the sub claim
value, except that a decodable token with no sub claim escapes as an
uncaught KeyError; no failure other than the 422 outcome and that
KeyError (in particular no 401) is possible. -/
theorem email_redeem_taxonomy (t : Jwt) (now : Nat) :
    (∀ je, jwtDecode t now = Except.error je →
      get_email_from_token t now
        = Except.error (AppError.http 422 "Invalid token for email verification" false)) ∧
    (∀ p v, jwtDecode t now = Except.ok p → p.sub = some v →
      get_email_from_token t now = Except.ok v) ∧
    (∀ p, jwtDecode t now = Except.ok p → p.sub = none →
      get_email_from_token t now = Except.error AppError.keyError) ∧
    (∀ e, get_email_from_token t now = Except.error e →
      e = AppError.http 422 "Invalid token for email verification" false ∨
      e = AppError.keyError) := by
  refine ⟨?_, ?_, ?_, ?_⟩
  · intro je h
    simp [get_email_from_token, h]
  · intro p v hp hs
    simp [get_email_from_token, hp, hs]
  · intro p hp hs
    simp [get_email_from_token, hp, hs]
  · intro e he
    unfold get_email_from_token at he
    repeat' split at he
    all_goals simp_all

/-- Witness for the amended C5: a tampered token maps to 422 and a fresh
email-verification token redeems to its subject. -/
theorem email_redeem_taxonomy_witness :
    get_email_from_token (Jwt.mk (TokenClaims.mk none none 0 100) false) 0
      = Except.error (AppError.http 422 "Invalid token for email verification" false) ∧
    get_email_from_token (create_email_token (some (JsonVal.str "x@y")) 0) 3
      = Except.ok (JsonVal.str "x@y") :=
  ⟨(email_redeem_taxonomy (Jwt.mk (TokenClaims.mk none none 0 100) false) 0).1
      JoseError.signatureError rfl,
   (email_redeem_taxonomy (create_email_token (some (JsonVal.str "x@y")) 0) 3).2.1
      (create_email_token (some (JsonVal.str "x@y")) 0).claims
      (JsonVal.str "x@y") rfl rfl⟩

/-- Counterexample to claim C6 as stated: a caller-supplied
expires_delta of 0 seconds does not override the default, because the
code tests Python truthiness; the access token issued at time 0 with
expires_delta = 0 expires at 900 (the 15 minute default), not at 0. -/
theorem ttl_zero_override_counterexample :
    (create_access_token (some (JsonVal.str "a")) (some 0) 0).claims.exp = 900 ∧
    (create_access_token (some (JsonVal.str "a")) (some 0) 0).claims.exp ≠ 0 + 0 := by
  refine ⟨rfl, by decide⟩

/-- Claim C6 amended: with no expires_delta the defaults are 15 minutes
for access tokens and 7 days for refresh tokens, and email tokens always
live 7 days; a truthy (nonzero) caller-supplied expires_delta in seconds
overrides the default, while a supplied expires_delta of 0 falls back to
the default. -/
theorem token_lifetimes (dataSub : Option JsonVal) (now : Nat) (d : Nat)
    (hd : d ≠ 0) :
    (create_access_token dataSub none now).claims.exp = now + 15 * 60 ∧
    (create_refresh_token dataSub none now).claims.exp = now + 7 * 24 * 60 * 60 ∧
    (create_email_token dataSub now).claims.exp = now + 7 * 24 * 60 * 60 ∧
    (create_access_token dataSub (some d) now).claims.exp = now + d ∧
    (create_refresh_token dataSub (some d) now).claims.exp = now + d ∧
    (create_access_token dataSub (some 0) now).claims.exp = now + 15 * 60 ∧
    (create_refresh_token dataSub (some 0) now).claims.exp = now + 7 * 24 * 60 * 60 := by
  refine ⟨rfl, rfl, rfl, ?_, ?_, rfl, rfl⟩
  · simp [create_access_token, pyTruthy, hd]
  · simp [create_refresh_token, pyTruthy, hd]

/-- Witness for the amended C6 at issue time 10 and override 30. -/
theorem token_lifetimes_witness :
    (create_access_token (some (JsonVal.str "a")) none 10).claims.exp = 10 + 15 * 60 ∧
    (create_refresh_token (some (JsonVal.str "a")) none 10).claims.exp
      = 10 + 7 * 24 * 60 * 60 ∧
    (create_email_token (some (JsonVal.str "a")) 10).claims.exp
      = 10 + 7 * 24 * 60 * 60 ∧
    (create_access_token (some (JsonVal.str "a")) (some 30) 10).claims.exp = 10 + 30 ∧
    (create_refresh_token (some (JsonVal.str "a")) (some 30) 10).claims.exp = 10 + 30 ∧
    (create_access_token (some (JsonVal.str "a")) (some 0) 10).claims.exp = 10 + 15 * 60 ∧
    (create_refresh_token (some (JsonVal.str "a")) (some 0) 10).claims.exp
      = 10 + 7 * 24 * 60 * 60 :=
  token_lifetimes (some (JsonVal.str "a")) 10 30 (by decide)

/-- Counterexample to claim C7 as stated: on a string that is not a
well-formed hash, verify_password raises UnknownHashError (it delegates
to pwd_context.verify with no exception handling), so it neither returns
false nor any boolean at all. -/
theorem verify_password_throws_counterexample :
    verify_password "p" (PasslibHash.malformed "not-a-hash")
      = Except.error "UnknownHashError" ∧
    verify_password "p" (PasslibHash.malformed "not-a-hash") ≠ Except.ok false ∧
    verify_password "p" (PasslibHash.malformed "not-a-hash") ≠ Except.ok true := by
  refine ⟨rfl, ?_, ?_⟩
  · intro h
    cases h
  · intro h
    cases h

/-- Claim C7 amended: verify_password returns true on the password that
produced a well-formed hash and false on any other password, but on a
malformed (unidentifiable) hash it raises UnknownHashError instead of
returning false. -/
theorem verify_password_contract (plain other : String) (salt : Nat)
    (raw : String) (hne : other ≠ plain) :
    verify_password plain (get_password_hash plain salt) = Except.ok true ∧
    verify_password other (get_password_hash plain salt) = Except.ok false ∧
    verify_password plain (PasslibHash.malformed raw)
      = Except.error "UnknownHashError" := by
  refine ⟨?_, ?_, rfl⟩
  · simp [verify_password, pwd_context_verify, get_password_hash]
  · simp [verify_password, pwd_context_verify, get_password_hash, hne]

/-- Witness for the amended C7 at concrete passwords and hashes. -/
theorem verify_password_contract_witness :
    verify_password "p" (get_password_hash "p" 3) = Except.ok true ∧
    verify_password "q" (get_password_hash "p" 3) = Except.ok false ∧
    verify_password "p" (PasslibHash.malformed "zzz")
      = Except.error "UnknownHashError" :=
  verify_password_contract "p" "q" 3 "zzz" (by decide)
